import Mathlib

set_option maxHeartbeats 1000000
set_option maxRecDepth 4000

/-!
Shallow embedding of the WaveSwap staking programs.

Two program variants are embedded:

* `WaveswapStake` — `src/packages/programs/programs/waveswap_stake/src/lib.rs`
  (Anchor module `solana_staking_rewards`): reward-per-token accumulator with
  per-position checkpoints.
* `WaveStake` — `src/packages/programs/wave_stake/src/lib.rs` (Anchor module
  `wave_stake`): proportional-share recompute at claim time.

Machine integers are modelled as `Nat` (for `u64`/`u128`, with an explicit
bound check wherever the source uses `checked_*` arithmetic and an explicit
`% 2 ^ 64` / `% 2 ^ 16` wherever the source narrows with an `as` cast) and as
`Int` (for `i64` timestamps).  Fallible instruction handlers return
`Except ErrorCode _`.  Token transfers (the custody adapter) are outside the
accounting core per the spec and therefore drop out of the embedding; account
constraint checks that Anchor performs before a handler runs (such as
`has_one`) are modelled as explicit guards at the top of the handler.
-/

namespace WaveswapStake

/-- the `ErrorCode` enum of `waveswap_stake` (lines 543–559). -/
inductive ErrorCode where
  | MathOverflow
  | InsufficientFunds
  | Unauthorized
  | InvalidAmount
  | InvalidMint
  | NoRewardsToClaim
  | InvalidStartTime
  deriving DecidableEq

/-- `GlobalState` (lines 480–495); pubkeys are abstracted as `Nat`
(`0` plays `Pubkey::default()`), vault/mint fields are custody-side and
omitted. -/
structure GlobalState where
  admin : Nat
  reward_duration : Nat
  reward_rate : Nat
  start_time : Int
  period_finish : Int
  last_update_time : Int
  reward_per_token_stored : Nat
  total_staked : Nat
  deriving DecidableEq

/-- `UserState` (lines 501–508); `user = 0` plays `Pubkey::default()`,
i.e. a not-yet-initialized account. -/
structure UserState where
  user : Nat
  staked_amount : Nat
  rewards_earned : Nat
  reward_per_token_paid : Nat
  deriving DecidableEq

/-- `calculate_reward_per_token` (lines 273–304).  `stored` is the `u128`
accumulator; timestamps are `i64`.  The `i64` `checked_sub` fails when the
(positive, by the preceding guard) difference does not fit in `i64`; the
`u128` `checked_mul`/`checked_add` fail at `2 ^ 128`; `checked_div` fails on a
zero divisor. -/
def calculate_reward_per_token (stored : Nat) (last_update start_time period_finish : Int)
    (reward_rate total_staked : Nat) (current_time : Int) : Except ErrorCode Nat :=
  if total_staked = 0 ∨ current_time < start_time then
    .ok stored
  else
    let effective_start := max last_update start_time
    let last_applicable_time := if current_time < period_finish then current_time else period_finish
    if last_applicable_time ≤ effective_start then
      .ok stored
    else if last_applicable_time - effective_start ≥ 2 ^ 63 then
      .error .MathOverflow
    else
      let time_diff : Nat := (last_applicable_time - effective_start).toNat
      if reward_rate * time_diff ≥ 2 ^ 128 then .error .MathOverflow
      else if reward_rate * time_diff * 1000000 ≥ 2 ^ 128 then .error .MathOverflow
      else if total_staked = 0 then .error .MathOverflow
      else
        let reward_increment := reward_rate * time_diff * 1000000 / total_staked
        if stored + reward_increment ≥ 2 ^ 128 then .error .MathOverflow
        else .ok (stored + reward_increment)

/-- `calculate_earned` (lines 306–318).  The `u128` `checked_sub` fails when
the checkpoint exceeds the accumulator; the `u128` quotient is narrowed back
to `u64` by an `as u64` cast, i.e. reduced `% 2 ^ 64`; the final `u64`
`checked_add` fails at `2 ^ 64`. -/
def calculate_earned (staked_amount reward_per_token reward_per_token_paid rewards_earned : Nat) :
    Except ErrorCode Nat :=
  if reward_per_token < reward_per_token_paid then .error .MathOverflow
  else
    let reward_diff := reward_per_token - reward_per_token_paid
    if staked_amount * reward_diff ≥ 2 ^ 128 then .error .MathOverflow
    else
      let new_reward := staked_amount * reward_diff / 1000000 % 2 ^ 64
      if rewards_earned + new_reward ≥ 2 ^ 64 then .error .MathOverflow
      else .ok (rewards_earned + new_reward)

/-- `initialize_config` (lines 11–27): the freshly written global state. -/
def initialize_config (admin : Nat) (now : Int) : GlobalState :=
  { admin := admin, reward_duration := 0, reward_rate := 0, start_time := 0,
    period_finish := 0, last_update_time := now, reward_per_token_stored := 0,
    total_staked := 0 }

/-- The pool-settlement prelude shared verbatim by `set_rewards`, `stake`,
`withdraw` and `claim_reward` (e.g. lines 102–111): refresh
`reward_per_token_stored` and stamp `last_update_time := now`. -/
def settlePool (g : GlobalState) (now : Int) : Except ErrorCode GlobalState :=
  match calculate_reward_per_token g.reward_per_token_stored g.last_update_time g.start_time
      g.period_finish g.reward_rate g.total_staked now with
  | .error e => .error e
  | .ok v => .ok { g with reward_per_token_stored := v, last_update_time := now }

/-- `set_rewards` (lines 34–93).  The leading `caller ≠ admin` guard is the
Anchor `has_one = admin @ ErrorCode::Unauthorized` constraint of the
`SetRewards` accounts context (lines 336–344); the mint/vault bookkeeping and
the funding transfer are custody-side and omitted. -/
def set_rewards (g : GlobalState) (caller : Nat) (total_reward duration : Nat)
    (start_time now : Int) : Except ErrorCode GlobalState :=
  if caller ≠ g.admin then .error .Unauthorized
  else if total_reward = 0 then .error .InvalidAmount
  else if duration = 0 then .error .InvalidAmount
  else if start_time < now then .error .InvalidStartTime
  else
    match settlePool g now with
    | .error e => .error e
    | .ok g1 =>
      if duration = 0 then .error .MathOverflow
      else if start_time + (duration : Int) ≥ 2 ^ 63 then .error .MathOverflow
      else .ok { g1 with reward_rate := total_reward / duration,
                         start_time := start_time,
                         period_finish := start_time + (duration : Int),
                         reward_duration := duration }

/-- `stake` (lines 96–154).  The `u.user = 0` branch is the
`Pubkey::default()` first-touch initialization (lines 116–122). -/
def stake (g : GlobalState) (u : UserState) (user_key amount : Nat) (now : Int) :
    Except ErrorCode (GlobalState × UserState) :=
  if amount = 0 then .error .InvalidAmount
  else
    match settlePool g now with
    | .error e => .error e
    | .ok g1 =>
      let u1 := if u.user = 0 then
          { u with user := user_key, staked_amount := 0, rewards_earned := 0,
                   reward_per_token_paid := 0 }
        else u
      match calculate_earned u1.staked_amount g1.reward_per_token_stored
          u1.reward_per_token_paid u1.rewards_earned with
      | .error e => .error e
      | .ok earned =>
        let u2 := { u1 with rewards_earned := earned,
                            reward_per_token_paid := g1.reward_per_token_stored }
        if u2.staked_amount + amount ≥ 2 ^ 64 then .error .MathOverflow
        else if g1.total_staked + amount ≥ 2 ^ 64 then .error .MathOverflow
        else .ok ({ g1 with total_staked := g1.total_staked + amount },
                  { u2 with staked_amount := u2.staked_amount + amount })

/-- `withdraw` (lines 157–214). -/
def withdraw (g : GlobalState) (u : UserState) (amount : Nat) (now : Int) :
    Except ErrorCode (GlobalState × UserState) :=
  if amount = 0 then .error .InvalidAmount
  else
    match settlePool g now with
    | .error e => .error e
    | .ok g1 =>
      if u.staked_amount < amount then .error .InsufficientFunds
      else
        match calculate_earned u.staked_amount g1.reward_per_token_stored
            u.reward_per_token_paid u.rewards_earned with
        | .error e => .error e
        | .ok earned =>
          let u2 := { u with rewards_earned := earned,
                             reward_per_token_paid := g1.reward_per_token_stored }
          if u2.staked_amount < amount then .error .MathOverflow
          else if g1.total_staked < amount then .error .MathOverflow
          else .ok ({ g1 with total_staked := g1.total_staked - amount },
                    { u2 with staked_amount := u2.staked_amount - amount })

/-- `claim_reward` (lines 216–270); the returned `Nat` is the amount paid out
of the reward vault. -/
def claim_reward (g : GlobalState) (u : UserState) (now : Int) :
    Except ErrorCode (GlobalState × UserState × Nat) :=
  match settlePool g now with
  | .error e => .error e
  | .ok g1 =>
    match calculate_earned u.staked_amount g1.reward_per_token_stored
        u.reward_per_token_paid u.rewards_earned with
    | .error e => .error e
    | .ok earned =>
      let u2 := { u with rewards_earned := earned,
                         reward_per_token_paid := g1.reward_per_token_stored }
      if u2.rewards_earned = 0 then .error .NoRewardsToClaim
      else .ok (g1, { u2 with rewards_earned := 0 }, u2.rewards_earned)

/-- The position-settlement prelude shared by `stake`, `withdraw` and
`claim_reward` (e.g. lines 124–130): settle the pool, fold the accumulator
delta into `rewards_earned`, advance the checkpoint. -/
def settle_position (g : GlobalState) (u : UserState) (now : Int) :
    Except ErrorCode (GlobalState × UserState) :=
  match settlePool g now with
  | .error e => .error e
  | .ok g1 =>
    match calculate_earned u.staked_amount g1.reward_per_token_stored
        u.reward_per_token_paid u.rewards_earned with
    | .error e => .error e
    | .ok earned =>
      .ok (g1, { u with rewards_earned := earned,
                        reward_per_token_paid := g1.reward_per_token_stored })

/-- Settling two distinct positions of one pool back to back (two
transactions touching the same `GlobalState`). -/
def settleTwo (g : GlobalState) (u1 u2 : UserState) (now : Int) :
    Except ErrorCode (GlobalState × UserState × UserState) :=
  match settle_position g u1 now with
  | .error e => .error e
  | .ok (g1, u1') =>
    match settle_position g1 u2 now with
    | .error e => .error e
    | .ok (g2, u2') => .ok (g2, u1', u2')

/-- Follows the spec's words (§4.1, `settle(pool, now)`), for comparison with
`calculate_reward_per_token`: no-op when `total_staked = 0` or
`now < period_start`; effective end `min(now, period_end)`, effective start
`max(last_settled_at, period_start)`; no-op when `end ≤ start`; otherwise the
accumulator grows by `emission_rate * (end - start)`, scaled to the
fixed-point precision and integer-divided by `total_staked`. -/
def rewardPerTokenSpec (stored : Nat) (last_update start_time period_finish : Int)
    (reward_rate total_staked : Nat) (current_time : Int) : Nat :=
  if total_staked = 0 ∨ current_time < start_time then stored
  else
    let e := min current_time period_finish
    let s := max last_update start_time
    if e ≤ s then stored
    else stored + reward_rate * (e - s).toNat * 1000000 / total_staked

end WaveswapStake

namespace WaveStake

/-- the `ErrorCode` enum of `wave_stake` (lines 638–654). -/
inductive ErrorCode where
  | InvalidAmount
  | InsufficientStake
  | StillInLockPeriod
  | MathOverflow
  | NoRewardsAvailable
  | InvalidMint
  | InvalidTokenProgram
  deriving DecidableEq

/-- `Pool` (lines 584–598); pubkeys abstracted as `Nat`, mint/LST fields are
custody-side and omitted. -/
structure Pool where
  reward_per_second : Nat
  lock_duration : Nat
  lock_bonus_percentage : Nat
  total_staked : Nat
  total_reward_distributed : Nat
  last_update_timestamp : Int
  authority : Nat
  deriving DecidableEq

/-- `User` (lines 615–624). -/
structure User where
  amount : Nat
  lock_type : Nat
  lock_start_timestamp : Int
  lock_end_timestamp : Int
  bonus_multiplier : Nat
  last_reward_claim_timestamp : Int
  deriving DecidableEq

/-- An `i64` value reinterpreted as `u64` by an `as u64` cast: reduce modulo
`2 ^ 64` (this agrees with two's-complement reinterpretation on the whole
`i64` range). -/
def asU64 (x : Int) : Nat := (x % (2 ^ 64 : Int)).toNat

/-- `create_user_account` (lines 23–38): the freshly written user record. -/
def create_user_account (now : Int) : User :=
  { amount := 0, lock_type := 0, lock_start_timestamp := 0, lock_end_timestamp := 0,
    bonus_multiplier := 10000, last_reward_claim_timestamp := now }

/-- `stake` (lines 77–170).  The pool-side bookkeeping (lines 85–94) only
adds `reward_per_second * time_elapsed` to `total_reward_distributed`; the
`is_new` test (line 98, `user.amount == 0` read before the addition) guards
the lock/bonus initialization; line 119 unconditionally resets
`last_reward_claim_timestamp` to `now`.  `clock + lock_duration` is a plain
(unchecked) `i64` addition and `10000 + lock_bonus_percentage` a plain `u16`
addition, hence the `% 2 ^ 16`. -/
def stake (pool : Pool) (user : User) (amount lock_type : Nat) (now : Int) :
    Except ErrorCode (Pool × User) :=
  if amount = 0 then .error .InvalidAmount
  else
    let time_elapsed := asU64 (now - pool.last_update_timestamp)
    match (if 0 < time_elapsed ∧ 0 < pool.total_staked then
        if pool.reward_per_second * time_elapsed ≥ 2 ^ 64 then
          Except.error ErrorCode.MathOverflow
        else if pool.total_reward_distributed + pool.reward_per_second * time_elapsed ≥ 2 ^ 64 then
          Except.error ErrorCode.MathOverflow
        else Except.ok (pool.total_reward_distributed + pool.reward_per_second * time_elapsed)
      else Except.ok pool.total_reward_distributed) with
    | .error e => .error e
    | .ok trd =>
      let pool1 := { pool with total_reward_distributed := trd, last_update_timestamp := now }
      let is_new := user.amount = 0
      if user.amount + amount ≥ 2 ^ 64 then .error .MathOverflow
      else
        let user1 := { user with amount := user.amount + amount }
        let user2 :=
          if is_new then
            if lock_type = 1 then
              { user1 with lock_type := lock_type,
                           lock_start_timestamp := now,
                           lock_end_timestamp := now + (pool.lock_duration : Int),
                           bonus_multiplier := (10000 + pool.lock_bonus_percentage) % 2 ^ 16 }
            else
              { user1 with lock_type := lock_type,
                           lock_start_timestamp := 0,
                           lock_end_timestamp := 0,
                           bonus_multiplier := 10000 }
          else user1
        let user3 := { user2 with last_reward_claim_timestamp := now }
        if pool1.total_staked + amount ≥ 2 ^ 64 then .error .MathOverflow
        else .ok ({ pool1 with total_staked := pool1.total_staked + amount }, user3)

/-- The pending-reward computation duplicated in `unstake` (lines 192–212)
and `claim_rewards` (lines 279–300): the *current* proportional share (in
basis points, `u128` intermediate narrowed back `as u64`) times the whole
elapsed interval at the *current* rate, scaled by the bonus multiplier. -/
def pending_rewards (pool : Pool) (user : User) (now : Int) : Except ErrorCode Nat :=
  let time_elapsed := asU64 (now - user.last_reward_claim_timestamp)
  match (if 0 < pool.total_staked then
      if user.amount * 10000 ≥ 2 ^ 128 then Except.error ErrorCode.MathOverflow
      else Except.ok (user.amount * 10000 / pool.total_staked % 2 ^ 64)
    else Except.ok 0) with
  | .error e => .error e
  | .ok user_share =>
    if pool.reward_per_second * time_elapsed ≥ 2 ^ 64 then .error .MathOverflow
    else if pool.reward_per_second * time_elapsed * user_share ≥ 2 ^ 64 then .error .MathOverflow
    else if pool.reward_per_second * time_elapsed * user_share * user.bonus_multiplier ≥ 2 ^ 64 then
      .error .MathOverflow
    else .ok (pool.reward_per_second * time_elapsed * user_share * user.bonus_multiplier / 10000)

/-- `unstake` (lines 173–270).  The pending rewards are computed (and can
abort the operation with `MathOverflow`) but are only logged, never credited
or paid. -/
def unstake (pool : Pool) (user : User) (amount : Nat) (now : Int) :
    Except ErrorCode (Pool × User) :=
  if amount = 0 then .error .InvalidAmount
  else if user.amount < amount then .error .InsufficientStake
  else if user.lock_type = 1 ∧ now < user.lock_end_timestamp then .error .StillInLockPeriod
  else
    match pending_rewards pool user now with
    | .error e => .error e
    | .ok _pending =>
      if user.amount < amount then .error .MathOverflow
      else if pool.total_staked < amount then .error .MathOverflow
      else .ok ({ pool with total_staked := pool.total_staked - amount },
                { user with amount := user.amount - amount,
                            last_reward_claim_timestamp := now })

/-- `claim_rewards` (lines 273–314); the returned `Nat` is the claimed
amount (the handler performs no transfer, it only logs and books it into
`total_reward_distributed`). -/
def claim_rewards (pool : Pool) (user : User) (now : Int) :
    Except ErrorCode (Pool × User × Nat) :=
  match pending_rewards pool user now with
  | .error e => .error e
  | .ok rewards =>
    if rewards = 0 then .error .NoRewardsAvailable
    else if pool.total_reward_distributed + rewards ≥ 2 ^ 64 then .error .MathOverflow
    else .ok ({ pool with total_reward_distributed := pool.total_reward_distributed + rewards },
              { user with last_reward_claim_timestamp := now }, rewards)

/-- `update_pool` (lines 317–339).  The `UpdatePool` accounts context
(lines 535–545) constrains only the pool PDA and requires some signer; it
contains no `has_one`/address constraint tying the signer to
`pool.authority`, so the handler runs for any caller — `caller` is accepted
unchecked. -/
def update_pool (pool : Pool) (caller : Nat)
    (new_reward_per_second new_lock_duration new_lock_bonus_percentage : Option Nat) :
    Except ErrorCode Pool :=
  let _ := caller
  .ok { pool with
        reward_per_second := new_reward_per_second.getD pool.reward_per_second,
        lock_duration := new_lock_duration.getD pool.lock_duration,
        lock_bonus_percentage := new_lock_bonus_percentage.getD pool.lock_bonus_percentage }

/-- `close_user_account` (lines 342–361): checks the lock, then closes the
user account (rent refund is custody-side).  The pool is returned unchanged —
in particular `total_staked` is not reduced by the closed position's
`amount`, and `amount = 0` is not required. -/
def close_user_account (pool : Pool) (user : User) (now : Int) : Except ErrorCode Pool :=
  if user.lock_type = 1 ∧ now < user.lock_end_timestamp then .error .StillInLockPeriod
  else .ok pool

end WaveStake

namespace WaveswapStake

/-- C1 scenario: global state freshly initialized by admin `1` at `t = 0`. -/
def c1_g0 : GlobalState := initialize_config 1 0

/-- C1 scenario: actor A's untouched (`Pubkey::default()`) user account. -/
def c1_userA0 : UserState :=
  { user := 0, staked_amount := 0, rewards_earned := 0, reward_per_token_paid := 0 }

/-- C1 scenario: actor B's untouched user account. -/
def c1_userB0 : UserState :=
  { user := 0, staked_amount := 0, rewards_earned := 0, reward_per_token_paid := 0 }

/-- C8 witness: a settled global state with no stake. -/
def c8_g : GlobalState := initialize_config 1 0

/-- C8 witness: a user holding `7` units of already-settled reward. -/
def c8_u : UserState :=
  { user := 5, staked_amount := 0, rewards_earned := 7, reward_per_token_paid := 0 }

/-- C8 witness: `c8_u` right after the successful claim. -/
def c8_u1 : UserState :=
  { user := 5, staked_amount := 0, rewards_earned := 0, reward_per_token_paid := 0 }

end WaveswapStake

namespace WaveStake

/-- C4 scenario: pool at rate 1/sec with 100 units staked, settled at `t = 0`. -/
def c4_pool0 : Pool :=
  { reward_per_second := 1, lock_duration := 0, lock_bonus_percentage := 0,
    total_staked := 100, total_reward_distributed := 0, last_update_timestamp := 0,
    authority := 1 }

/-- C4 scenario: a flexible position holding the whole pool, last settled at `t = 0`. -/
def c4_user0 : User :=
  { amount := 100, lock_type := 0, lock_start_timestamp := 0, lock_end_timestamp := 0,
    bonus_multiplier := 10000, last_reward_claim_timestamp := 0 }

/-- C4 scenario: the pool after `stake 1` at `t = 50`. -/
def c4_pool1 : Pool :=
  { reward_per_second := 1, lock_duration := 0, lock_bonus_percentage := 0,
    total_staked := 101, total_reward_distributed := 50, last_update_timestamp := 50,
    authority := 1 }

/-- C4 scenario: the position after `stake 1` at `t = 50`. -/
def c4_user1 : User :=
  { amount := 101, lock_type := 0, lock_start_timestamp := 0, lock_end_timestamp := 0,
    bonus_multiplier := 10000, last_reward_claim_timestamp := 50 }

/-- C5 scenario: an empty pool. -/
def c5_pool0 : Pool :=
  { reward_per_second := 0, lock_duration := 0, lock_bonus_percentage := 0,
    total_staked := 0, total_reward_distributed := 0, last_update_timestamp := 0,
    authority := 1 }

/-- C5 scenario: a freshly created user account. -/
def c5_user0 : User := create_user_account 0

/-- C5 scenario: the pool after the user stakes 100. -/
def c5_pool1 : Pool :=
  { reward_per_second := 0, lock_duration := 0, lock_bonus_percentage := 0,
    total_staked := 100, total_reward_distributed := 0, last_update_timestamp := 0,
    authority := 1 }

/-- C5 scenario: the position after staking 100. -/
def c5_user1 : User :=
  { amount := 100, lock_type := 0, lock_start_timestamp := 0, lock_end_timestamp := 0,
    bonus_multiplier := 10000, last_reward_claim_timestamp := 0 }

/-- C9 scenario: pool with a 100 s lock window paying a 50 % lock bonus. -/
def c9_pool0 : Pool :=
  { reward_per_second := 1, lock_duration := 100, lock_bonus_percentage := 5000,
    total_staked := 0, total_reward_distributed := 0, last_update_timestamp := 0,
    authority := 1 }

/-- C9 scenario: a freshly created user account. -/
def c9_user0 : User := create_user_account 0

/-- C9 scenario: the pool after the locked stake of 100 at `t = 0`. -/
def c9_pool1 : Pool :=
  { reward_per_second := 1, lock_duration := 100, lock_bonus_percentage := 5000,
    total_staked := 100, total_reward_distributed := 0, last_update_timestamp := 0,
    authority := 1 }

/-- C9 scenario: the position after the locked stake of 100 at `t = 0`
(bonus 1.5x, lock window `[0, 100)`). -/
def c9_user1 : User :=
  { amount := 100, lock_type := 1, lock_start_timestamp := 0, lock_end_timestamp := 100,
    bonus_multiplier := 15000, last_reward_claim_timestamp := 0 }

/-- C9 scenario: the pool after the full unstake at `t = 100`. -/
def c9_pool2 : Pool :=
  { reward_per_second := 1, lock_duration := 100, lock_bonus_percentage := 5000,
    total_staked := 0, total_reward_distributed := 0, last_update_timestamp := 0,
    authority := 1 }

/-- C9 scenario: the emptied (but still existing) position after the full
unstake at `t = 100`. -/
def c9_user2 : User :=
  { amount := 0, lock_type := 1, lock_start_timestamp := 0, lock_end_timestamp := 100,
    bonus_multiplier := 15000, last_reward_claim_timestamp := 100 }

/-- C9 scenario: the pool after the re-deposit of 50 at `t = 100`. -/
def c9_pool3 : Pool :=
  { reward_per_second := 1, lock_duration := 100, lock_bonus_percentage := 5000,
    total_staked := 50, total_reward_distributed := 0, last_update_timestamp := 100,
    authority := 1 }

/-- C9 scenario: the position after the flexible re-deposit of 50 at
`t = 100` — lock terms and bonus have been re-derived. -/
def c9_user3 : User :=
  { amount := 50, lock_type := 0, lock_start_timestamp := 0, lock_end_timestamp := 0,
    bonus_multiplier := 10000, last_reward_claim_timestamp := 100 }

/-- C9 amended-claim witness: the pool after a top-up of 1 into `c9_user1`
at `t = 50`. -/
def c9_poolT : Pool :=
  { reward_per_second := 1, lock_duration := 100, lock_bonus_percentage := 5000,
    total_staked := 101, total_reward_distributed := 50, last_update_timestamp := 50,
    authority := 1 }

/-- C9 amended-claim witness: the position after a top-up of 1 at `t = 50` —
lock terms and bonus untouched. -/
def c9_userT : User :=
  { amount := 101, lock_type := 1, lock_start_timestamp := 0, lock_end_timestamp := 100,
    bonus_multiplier := 15000, last_reward_claim_timestamp := 50 }

/-- C10 scenario: a pool whose stored authority is pubkey `1`. -/
def c10_pool : Pool :=
  { reward_per_second := 5, lock_duration := 0, lock_bonus_percentage := 0,
    total_staked := 0, total_reward_distributed := 0, last_update_timestamp := 0,
    authority := 1 }

/-- C10 scenario: `c10_pool` after the parameter change by the stranger. -/
def c10_pool1 : Pool :=
  { reward_per_second := 7, lock_duration := 0, lock_bonus_percentage := 0,
    total_staked := 0, total_reward_distributed := 0, last_update_timestamp := 0,
    authority := 1 }

/-- C7 witness: a pool for the lock-enforcement check. -/
def c7_pool : Pool :=
  { reward_per_second := 1, lock_duration := 1000, lock_bonus_percentage := 5000,
    total_staked := 10, total_reward_distributed := 0, last_update_timestamp := 0,
    authority := 1 }

/-- C7 witness: a time-locked position with `lock_end = 100`. -/
def c7_user : User :=
  { amount := 10, lock_type := 1, lock_start_timestamp := 0, lock_end_timestamp := 100,
    bonus_multiplier := 15000, last_reward_claim_timestamp := 0 }

end WaveStake

/-- C1: in a pool emitting 1 reward unit per second (funded with 1000 over
1000 s from `t = 0`), actor A stakes 1,000,000 at `t = 0` and actor B stakes
1,000,000 at `t = 100`; settling both positions at `t = 200` (via
`claim_reward`) pays A exactly 150 units and B exactly 50 units, and the two
payouts sum to the 200 units emitted over `[0, 200]` with no remainder
leak. -/
theorem waveswap_c1_two_staker_scenario :
    (do
      let g1 ← WaveswapStake.set_rewards WaveswapStake.c1_g0 1 1000 1000 0 0
      let (g2, a1) ← WaveswapStake.stake g1 WaveswapStake.c1_userA0 5 1000000 0
      let (g3, b1) ← WaveswapStake.stake g2 WaveswapStake.c1_userB0 6 1000000 100
      let (g4, _a2, rA) ← WaveswapStake.claim_reward g3 a1 200
      let (_g5, _b2, rB) ← WaveswapStake.claim_reward g4 b1 200
      pure (rA, rB, rA + rB)) = Except.ok (150, 50, 200) := rfl

namespace WaveswapStake

theorem ite_lt_eq_min (a b : Int) : (if a < b then a else b) = min a b := by
  split_ifs with h
  · exact (min_eq_left h.le).symm
  · exact (min_eq_right (not_lt.mp h)).symm

/-- Settling a pool whose `last_update` is already `now` leaves the
accumulator unchanged. -/
theorem calculate_reward_per_token_at_now (stored : Nat) (st pf : Int)
    (rate total : Nat) (now : Int) :
    calculate_reward_per_token stored now st pf rate total now = .ok stored := by
  unfold calculate_reward_per_token
  by_cases h : total = 0 ∨ now < st
  · simp [h]
  · rw [if_neg h]
    have hst : st ≤ now := not_lt.mp (not_or.mp h).2
    have hm : max now st = now := max_eq_left hst
    have hla : (if now < pf then now else pf) ≤ max now st := by
      rw [hm]; split_ifs with hc
      · exact le_refl now
      · exact not_lt.mp hc
    simp only [hla, if_true]

theorem settlePool_ok_inv {g g1 : GlobalState} {now : Int}
    (h : settlePool g now = .ok g1) :
    g1.last_update_time = now ∧ g1.admin = g.admin ∧ g1.reward_duration = g.reward_duration ∧
      g1.reward_rate = g.reward_rate ∧ g1.start_time = g.start_time ∧
      g1.period_finish = g.period_finish ∧ g1.total_staked = g.total_staked := by
  unfold settlePool at h
  cases hc : calculate_reward_per_token g.reward_per_token_stored g.last_update_time g.start_time
      g.period_finish g.reward_rate g.total_staked now with
  | error e => rw [hc] at h; exact absurd h (by simp)
  | ok v =>
    rw [hc] at h
    cases h
    exact ⟨rfl, rfl, rfl, rfl, rfl, rfl, rfl⟩

/-- A just-settled pool re-settles to itself. -/
theorem settlePool_idem {g g1 : GlobalState} {now : Int}
    (h : settlePool g now = .ok g1) : settlePool g1 now = .ok g1 := by
  have hlu := (settlePool_ok_inv h).1
  unfold settlePool
  rw [hlu, calculate_reward_per_token_at_now, ← hlu]

theorem calculate_reward_per_token_error {stored : Nat} {lu st pf : Int}
    {rate total : Nat} {now : Int} {e : ErrorCode}
    (h : calculate_reward_per_token stored lu st pf rate total now = .error e) :
    e = .MathOverflow := by
  simp only [calculate_reward_per_token] at h
  split_ifs at h <;> (cases h; rfl)

theorem settlePool_error {g : GlobalState} {now : Int} {e : ErrorCode}
    (h : settlePool g now = .error e) : e = .MathOverflow := by
  unfold settlePool at h
  cases hc : calculate_reward_per_token g.reward_per_token_stored g.last_update_time g.start_time
      g.period_finish g.reward_rate g.total_staked now with
  | error e' =>
    rw [hc] at h
    cases h
    exact calculate_reward_per_token_error hc
  | ok v => rw [hc] at h; exact absurd h (by simp)

theorem calculate_earned_error {s rpt paid re : Nat} {e : ErrorCode}
    (h : calculate_earned s rpt paid re = .error e) : e = .MathOverflow := by
  simp only [calculate_earned] at h
  split_ifs at h <;> (cases h; rfl)

theorem calculate_earned_ok_lt {s rpt paid re v : Nat}
    (h : calculate_earned s rpt paid re = .ok v) : v < 2 ^ 64 := by
  simp only [calculate_earned] at h
  split_ifs at h with h1 h2 h3
  cases h
  exact Nat.not_le.mp h3

/-- Settling a position against an accumulator it has already seen adds
nothing. -/
theorem calculate_earned_same (s x : Nat) {re : Nat} (h : re < 2 ^ 64) :
    calculate_earned s x x re = .ok re := by
  simp only [calculate_earned]
  split_ifs with h1 h2 h3
  · exact absurd h1 (lt_irrefl x)
  · rw [Nat.sub_self, Nat.mul_zero] at h2; exact absurd h2 (by norm_num)
  · rw [Nat.sub_self, Nat.mul_zero, Nat.zero_div, Nat.zero_mod, Nat.add_zero] at h3
    exact absurd h3 (Nat.not_le.mpr h)
  · rw [Nat.sub_self, Nat.mul_zero, Nat.zero_div, Nat.zero_mod, Nat.add_zero]

end WaveswapStake

/-- C2: for every pool settlement, if `total_staked = 0` or
`now < period_start` the accumulator is unchanged; otherwise, with
`end = min(now, period_end)` and `start = max(last_settled_at, period_start)`,
it is unchanged when `end ≤ start` and otherwise increases by exactly
`emission_rate * (end - start)`, scaled by the fixed-point precision
`1_000_000` and integer-divided by `total_staked` — i.e.
`calculate_reward_per_token` returns exactly the spec-mandated value
`rewardPerTokenSpec` whenever its checked arithmetic does not overflow. -/
theorem waveswap_c2_settle_refines_spec (stored : Nat) (lu st pf : Int)
    (rate total : Nat) (now : Int)
    (hdiff : min now pf - max lu st < 2 ^ 63)
    (hmul1 : rate * (min now pf - max lu st).toNat < 2 ^ 128)
    (hmul2 : rate * (min now pf - max lu st).toNat * 1000000 < 2 ^ 128)
    (hsum : stored + rate * (min now pf - max lu st).toNat * 1000000 / total < 2 ^ 128) :
    WaveswapStake.calculate_reward_per_token stored lu st pf rate total now =
      .ok (WaveswapStake.rewardPerTokenSpec stored lu st pf rate total now) := by
  simp only [WaveswapStake.calculate_reward_per_token, WaveswapStake.rewardPerTokenSpec,
    WaveswapStake.ite_lt_eq_min, ge_iff_le]
  by_cases h0 : total = 0 ∨ now < st
  · simp [h0]
  · rw [if_neg h0, if_neg h0]
    by_cases h1 : min now pf ≤ max lu st
    · rw [if_pos h1, if_pos h1]
    · rw [if_neg h1, if_neg h1, if_neg (not_le.mpr hdiff), if_neg (not_le.mpr hmul1),
        if_neg (not_le.mpr hmul2), if_neg (not_or.mp h0).1, if_neg (not_le.mpr hsum)]

/-- C2 witness: a concrete settlement (rate 1, two units staked, four
elapsed seconds inside the period) computing `1 * 4 * 1000000 / 2`. -/
theorem waveswap_c2_settle_refines_spec_witness :
    WaveswapStake.calculate_reward_per_token 0 0 0 10 1 2 4 = .ok 2000000 := by
  have h := waveswap_c2_settle_refines_spec 0 0 0 10 1 2 4 (by decide) (by decide)
    (by decide) (by decide)
  rw [h]
  rfl

/-- C3: order-independence of position settlement.  For any pool state, any
two positions and any settlement time, settling the two positions in either
order (each settlement refreshing the shared pool accumulator first, as every
mutating instruction does) produces identical final states — in particular
identical `rewards_earned` for both positions; and settling the same
position twice at one time is the same as settling it once, so no interval
of accrual is double-counted or skipped. -/
theorem waveswap_c3_order_independence (g : WaveswapStake.GlobalState)
    (u1 u2 : WaveswapStake.UserState) (now : Int) :
    WaveswapStake.settleTwo g u1 u2 now =
      Except.map (fun r => (r.1, r.2.2, r.2.1)) (WaveswapStake.settleTwo g u2 u1 now) ∧
    (WaveswapStake.settle_position g u1 now).bind
        (fun r => WaveswapStake.settle_position r.1 r.2 now) =
      WaveswapStake.settle_position g u1 now := by
  constructor
  · cases hp : WaveswapStake.settlePool g now with
    | error e =>
      simp [WaveswapStake.settleTwo, WaveswapStake.settle_position, hp, Except.map]
    | ok g1 =>
      have hidem : WaveswapStake.settlePool g1 now = .ok g1 := WaveswapStake.settlePool_idem hp
      cases h1 : WaveswapStake.calculate_earned u1.staked_amount g1.reward_per_token_stored
          u1.reward_per_token_paid u1.rewards_earned with
      | error e1 =>
        cases h2 : WaveswapStake.calculate_earned u2.staked_amount g1.reward_per_token_stored
            u2.reward_per_token_paid u2.rewards_earned with
        | error e2 =>
          have he1 := WaveswapStake.calculate_earned_error h1
          have he2 := WaveswapStake.calculate_earned_error h2
          subst he1; subst he2
          simp [WaveswapStake.settleTwo, WaveswapStake.settle_position, hp, hidem, h1, h2,
            Except.map]
        | ok v2 =>
          simp [WaveswapStake.settleTwo, WaveswapStake.settle_position, hp, hidem, h1, h2,
            Except.map]
      | ok v1 =>
        cases h2 : WaveswapStake.calculate_earned u2.staked_amount g1.reward_per_token_stored
            u2.reward_per_token_paid u2.rewards_earned with
        | error e2 =>
          simp [WaveswapStake.settleTwo, WaveswapStake.settle_position, hp, hidem, h1, h2,
            Except.map]
        | ok v2 =>
          simp [WaveswapStake.settleTwo, WaveswapStake.settle_position, hp, hidem, h1, h2,
            Except.map]
  · cases hp : WaveswapStake.settlePool g now with
    | error e =>
      simp [WaveswapStake.settle_position, hp, Except.bind]
    | ok g1 =>
      cases h1 : WaveswapStake.calculate_earned u1.staked_amount g1.reward_per_token_stored
          u1.reward_per_token_paid u1.rewards_earned with
      | error e1 =>
        simp [WaveswapStake.settle_position, hp, h1, Except.bind]
      | ok v1 =>
        have hb : v1 < 2 ^ 64 := WaveswapStake.calculate_earned_ok_lt h1
        have hidem : WaveswapStake.settlePool g1 now = .ok g1 := WaveswapStake.settlePool_idem hp
        simp [WaveswapStake.settle_position, hp, h1, Except.bind, hidem,
          WaveswapStake.calculate_earned_same _ _ hb]

/-- C8: claim semantics.  (a) If the settled accrued reward is zero,
`claim_reward` fails with `NoRewardsToClaim` (the `NothingToClaim` of the
spec).  (b) If `claim_reward` succeeds, it pays out exactly the accrued
reward held after settling the pool and the position, zeroes
`rewards_earned`, leaves the principal (`staked_amount`) unchanged, and a
second claim immediately afterwards (same `now`, nothing in between) fails
with `NoRewardsToClaim`, i.e. yields zero reward. -/
theorem waveswap_c8_claim_semantics :
    (∀ (g g1 : WaveswapStake.GlobalState) (u : WaveswapStake.UserState) (now : Int),
      WaveswapStake.settlePool g now = .ok g1 →
      WaveswapStake.calculate_earned u.staked_amount g1.reward_per_token_stored
        u.reward_per_token_paid u.rewards_earned = .ok 0 →
      WaveswapStake.claim_reward g u now = .error .NoRewardsToClaim) ∧
    (∀ (g g' : WaveswapStake.GlobalState) (u u' : WaveswapStake.UserState) (now : Int)
        (amt : Nat),
      WaveswapStake.claim_reward g u now = .ok (g', u', amt) →
      0 < amt ∧
      u'.rewards_earned = 0 ∧
      u'.staked_amount = u.staked_amount ∧
      WaveswapStake.settlePool g now = .ok g' ∧
      WaveswapStake.calculate_earned u.staked_amount g'.reward_per_token_stored
        u.reward_per_token_paid u.rewards_earned = .ok amt ∧
      WaveswapStake.claim_reward g' u' now = .error .NoRewardsToClaim) := by
  constructor
  · intro g g1 u now hp he
    simp [WaveswapStake.claim_reward, hp, he]
  · intro g g' u u' now amt h
    rw [WaveswapStake.claim_reward] at h
    cases hp : WaveswapStake.settlePool g now with
    | error e =>
      simp only [hp] at h
      exact Except.noConfusion h
    | ok g1 =>
      simp only [hp] at h
      cases he : WaveswapStake.calculate_earned u.staked_amount g1.reward_per_token_stored
          u.reward_per_token_paid u.rewards_earned with
      | error e =>
        simp only [he] at h
        exact Except.noConfusion h
      | ok v =>
        simp only [he] at h
        by_cases hz : v = 0
        · rw [if_pos hz] at h
          exact Except.noConfusion h
        · rw [if_neg hz] at h
          simp only [Except.ok.injEq, Prod.mk.injEq] at h
          obtain ⟨hg, hu, hamt⟩ := h
          subst hg; subst hamt; subst hu
          refine ⟨Nat.pos_of_ne_zero hz, rfl, rfl, rfl, he, ?_⟩
          simp [WaveswapStake.claim_reward, WaveswapStake.settlePool_idem hp,
            WaveswapStake.calculate_earned_same u.staked_amount g1.reward_per_token_stored
              (show (0 : Nat) < 2 ^ 64 by norm_num)]

/-- C8 witness: a user with 7 units of settled reward claims them; the
immediate second claim fails with `NoRewardsToClaim`. -/
theorem waveswap_c8_claim_semantics_witness :
    WaveswapStake.claim_reward WaveswapStake.c8_g WaveswapStake.c8_u 0 =
      .ok (WaveswapStake.c8_g, WaveswapStake.c8_u1, 7) ∧
    WaveswapStake.claim_reward WaveswapStake.c8_g WaveswapStake.c8_u1 0 =
      .error .NoRewardsToClaim :=
  ⟨rfl, (waveswap_c8_claim_semantics.2 WaveswapStake.c8_g WaveswapStake.c8_g
    WaveswapStake.c8_u WaveswapStake.c8_u1 0 7 rfl).2.2.2.2.2⟩

/-- C6 counterexample: `calculate_earned` with principal `2 ^ 32` and an
accumulator delta of `2 ^ 32 * 1000000` returns `Ok 0` — the exact
down-scaled entitlement is `2 ^ 64`, which does not fit the stored 64-bit
width, yet the `as u64` narrowing silently truncates it to `0` instead of
failing with the Overflow error. -/
theorem waveswap_c6_truncation_counterexample :
    WaveswapStake.calculate_earned (2 ^ 32) (2 ^ 32 * 1000000) 0 0 = .ok 0 ∧
    2 ^ 32 * (2 ^ 32 * 1000000 - 0) / 1000000 = 2 ^ 64 := ⟨rfl, by norm_num⟩

/-- C6 (amended): every add, subtract, multiply and divide of pool
settlement and position entitlement that the source writes as a checked
operation fails with the Overflow error rather than wrapping — a successful
`calculate_reward_per_token` returns the exact spec value with no reduction
anywhere — but the narrowing of the double-width (128-bit) quotient back to
the stored 64-bit width in `calculate_earned` is an unchecked `as u64` cast
that silently truncates the entitlement modulo `2 ^ 64`. -/
theorem waveswap_c6_checked_arithmetic_amended :
    (∀ s rpt paid re v : Nat,
      WaveswapStake.calculate_earned s rpt paid re = .ok v →
      paid ≤ rpt ∧ v = re + s * (rpt - paid) / 1000000 % 2 ^ 64) ∧
    (∀ (stored : Nat) (lu st pf : Int) (rate total : Nat) (now : Int) (v : Nat),
      WaveswapStake.calculate_reward_per_token stored lu st pf rate total now = .ok v →
      v = WaveswapStake.rewardPerTokenSpec stored lu st pf rate total now) := by
  constructor
  · intro s rpt paid re v h
    simp only [WaveswapStake.calculate_earned] at h
    split_ifs at h with h1 h2 h3
    cases h
    exact ⟨Nat.not_lt.mp h1, rfl⟩
  · intro stored lu st pf rate total now v h
    simp only [WaveswapStake.calculate_reward_per_token, WaveswapStake.ite_lt_eq_min,
      ge_iff_le] at h
    split_ifs at h with h0 h1 h2 h3 h4 h5 h6
    · cases h
      simp [WaveswapStake.rewardPerTokenSpec, h0]
    · cases h
      simp [WaveswapStake.rewardPerTokenSpec, h0, h1]
    · cases h
      simp [WaveswapStake.rewardPerTokenSpec, h0, h1]

/-- C6 amended-claim witness: a successful `calculate_earned` at principal
`1000000` over an accumulator delta of `5` returns exactly the (truncated)
down-scaled value. -/
theorem waveswap_c6_checked_arithmetic_amended_witness :
    2 ≤ 7 ∧ (5 : Nat) = 0 + 1000000 * (7 - 2) / 1000000 % 2 ^ 64 :=
  waveswap_c6_checked_arithmetic_amended.1 1000000 7 2 0 5 rfl

namespace WaveStake

theorem pending_rewards_error {p : Pool} {u : User} {now : Int} {e : ErrorCode}
    (h : pending_rewards p u now = .error e) : e = .MathOverflow := by
  simp only [pending_rewards] at h
  by_cases ht : 0 < p.total_staked
  · simp only [if_pos ht] at h
    by_cases hm : u.amount * 10000 ≥ 2 ^ 128
    · simp only [if_pos hm] at h
      cases h; rfl
    · simp only [if_neg hm] at h
      split_ifs at h <;> (cases h; rfl)
  · simp only [if_neg ht] at h
    split_ifs at h <;> (cases h; rfl)

end WaveStake

/-- C7: withdraw preconditions.  `unstake` requires `0 < amount` (else
`InvalidAmount`) and `amount ≤ position.principal` (else
`InsufficientStake`); for a time-locked position (`lock_type = 1`) with a
valid amount it fails with the lock error (`StillInLockPeriod`, the spec's
`LockActive`) exactly when `now < lock_end_timestamp` — so it is never
blocked by the lock once `now ≥ lock_end_timestamp`. -/
theorem wave_c7_unstake_preconditions (p : WaveStake.Pool) (u : WaveStake.User)
    (amount : Nat) (now : Int) :
    (amount = 0 → WaveStake.unstake p u amount now = .error .InvalidAmount) ∧
    (0 < amount → u.amount < amount →
      WaveStake.unstake p u amount now = .error .InsufficientStake) ∧
    (0 < amount → amount ≤ u.amount → u.lock_type = 1 →
      (WaveStake.unstake p u amount now = .error .StillInLockPeriod ↔
        now < u.lock_end_timestamp)) := by
  refine ⟨?_, ?_, ?_⟩
  · intro h
    simp [WaveStake.unstake, h]
  · intro h1 h2
    simp [WaveStake.unstake, h1.ne', h2]
  · intro h1 h2 hlock
    constructor
    · intro h
      by_contra hn
      push_neg at hn
      rw [WaveStake.unstake] at h
      rw [if_neg h1.ne', if_neg (Nat.not_lt.mpr h2),
        if_neg (fun hc : u.lock_type = 1 ∧ now < u.lock_end_timestamp =>
          absurd hc.2 (not_lt.mpr hn))] at h
      cases hpend : WaveStake.pending_rewards p u now with
      | error e =>
        simp only [hpend] at h
        injection h with h'
        have hmo := WaveStake.pending_rewards_error hpend
        subst h'
        exact WaveStake.ErrorCode.noConfusion hmo
      | ok pend =>
        simp only [hpend] at h
        split_ifs at h <;> simp at h
    · intro h
      simp [WaveStake.unstake, h1.ne', Nat.not_lt.mpr h2, hlock, h]

/-- C7 witness: a time-locked position (`lock_end = 100`) with 10 staked:
withdrawing 5 at `now = 50` fails with the lock error. -/
theorem wave_c7_unstake_preconditions_witness :
    WaveStake.unstake WaveStake.c7_pool WaveStake.c7_user 5 50 =
      .error .StillInLockPeriod :=
  ((wave_c7_unstake_preconditions WaveStake.c7_pool WaveStake.c7_user 5 50).2.2
    (by decide) (by decide) rfl).mpr (by decide)

/-- C4 (failing evaluation): in the `wave_stake` variant, a position holding
the whole pool (rate 1/sec) has a claimable pending reward at `t = 50`
(claiming alone pays 500000 with this variant's share arithmetic), but a
top-up deposit of 1 at `t = 50` resets `last_reward_claim_timestamp` without
crediting anything, after which the same claim fails with
`NoRewardsAvailable` — the deposit destroyed the reward already accrued for
elapsed time instead of settling it first. -/
theorem wave_c4_stake_wipes_accrued_reward :
    WaveStake.claim_rewards WaveStake.c4_pool0 WaveStake.c4_user0 50 =
      .ok ({ WaveStake.c4_pool0 with total_reward_distributed := 500000 },
           { WaveStake.c4_user0 with last_reward_claim_timestamp := 50 }, 500000) ∧
    WaveStake.stake WaveStake.c4_pool0 WaveStake.c4_user0 1 0 50 =
      .ok (WaveStake.c4_pool1, WaveStake.c4_user1) ∧
    WaveStake.claim_rewards WaveStake.c4_pool1 WaveStake.c4_user1 50 =
      .error .NoRewardsAvailable :=
  ⟨rfl, rfl, rfl⟩

/-- C5 (failing evaluation): in the `wave_stake` variant, staking 100 into an
empty pool and then calling `close_user_account` succeeds while the position
still holds `amount = 100`; the pool keeps `total_staked = 100` although no
live position remains, so `total_staked = Σ live principal` is broken by
position closure. -/
theorem wave_c5_close_breaks_conservation :
    WaveStake.stake WaveStake.c5_pool0 WaveStake.c5_user0 100 0 0 =
      .ok (WaveStake.c5_pool1, WaveStake.c5_user1) ∧
    WaveStake.close_user_account WaveStake.c5_pool1 WaveStake.c5_user1 0 =
      .ok WaveStake.c5_pool1 ∧
    WaveStake.c5_pool1.total_staked = 100 ∧
    WaveStake.c5_user1.amount = 100 :=
  ⟨rfl, rfl, rfl, rfl⟩

/-- C9 counterexample: a position is created with a locked stake at `t = 0`
(bonus 1.5x, `lock_end = 100`), fully unstaked at `t = 100` (the account
keeps existing with `amount = 0`), and then receives a subsequent flexible
deposit at `t = 100`; because `stake` re-runs its initialization whenever
`user.amount == 0`, this later deposit rewrites `bonus_multiplier`
(15000 → 10000), `lock_type` (1 → 0) and the lock window — so the bonus and
lock terms are not set exactly once at the first-ever deposit. -/
theorem wave_c9_rebonus_counterexample :
    WaveStake.stake WaveStake.c9_pool0 WaveStake.c9_user0 100 1 0 =
      .ok (WaveStake.c9_pool1, WaveStake.c9_user1) ∧
    WaveStake.unstake WaveStake.c9_pool1 WaveStake.c9_user1 100 100 =
      .ok (WaveStake.c9_pool2, WaveStake.c9_user2) ∧
    WaveStake.stake WaveStake.c9_pool2 WaveStake.c9_user2 50 0 100 =
      .ok (WaveStake.c9_pool3, WaveStake.c9_user3) ∧
    WaveStake.c9_user1.bonus_multiplier = 15000 ∧
    WaveStake.c9_user1.lock_type = 1 ∧
    WaveStake.c9_user3.bonus_multiplier = 10000 ∧
    WaveStake.c9_user3.lock_type = 0 :=
  ⟨rfl, rfl, rfl, rfl, rfl, rfl, rfl⟩

/-- C9 (amended): `bonus_multiplier`, `lock_type` and the lock window are
(re)initialized by any deposit made while the position's principal is zero —
the first-ever deposit, or a re-deposit after a full withdrawal — and are
never changed by a deposit into a position with positive principal, nor by
any withdrawal or claim. -/
theorem wave_c9_bonus_immutability_amended :
    ∀ (p : WaveStake.Pool) (u : WaveStake.User) (amount lk : Nat) (now : Int)
      (p' : WaveStake.Pool) (u' : WaveStake.User),
      (0 < u.amount → WaveStake.stake p u amount lk now = .ok (p', u') →
        u'.bonus_multiplier = u.bonus_multiplier ∧ u'.lock_type = u.lock_type ∧
        u'.lock_start_timestamp = u.lock_start_timestamp ∧
        u'.lock_end_timestamp = u.lock_end_timestamp) ∧
      (WaveStake.unstake p u amount now = .ok (p', u') →
        u'.bonus_multiplier = u.bonus_multiplier ∧ u'.lock_type = u.lock_type ∧
        u'.lock_start_timestamp = u.lock_start_timestamp ∧
        u'.lock_end_timestamp = u.lock_end_timestamp) ∧
      (∀ amt : Nat, WaveStake.claim_rewards p u now = .ok (p', u', amt) →
        u'.bonus_multiplier = u.bonus_multiplier ∧ u'.lock_type = u.lock_type ∧
        u'.lock_start_timestamp = u.lock_start_timestamp ∧
        u'.lock_end_timestamp = u.lock_end_timestamp) := by
  intro p u amount lk now p' u'
  refine ⟨?_, ?_, ?_⟩
  · intro hpos h
    by_cases ha : amount = 0
    · rw [WaveStake.stake, if_pos ha] at h
      exact Except.noConfusion h
    · simp only [WaveStake.stake, if_neg ha] at h
      split at h
      next => exact Except.noConfusion h
      next trd heq =>
        split_ifs at h
        all_goals first
          | (exact absurd ‹u.amount = 0› (Nat.pos_iff_ne_zero.mp hpos))
          | (injection h with h'
             injection h' with hp hu
             subst hp; subst hu
             exact ⟨rfl, rfl, rfl, rfl⟩)
  · intro h
    simp only [WaveStake.unstake] at h
    split_ifs at h
    all_goals split at h
    all_goals try exact Except.noConfusion h
    injection h with h'
    injection h' with hp hu
    subst hp; subst hu
    exact ⟨rfl, rfl, rfl, rfl⟩
  · intro amt h
    simp only [WaveStake.claim_rewards] at h
    split at h
    next => exact Except.noConfusion h
    next rewards heq =>
      split_ifs at h
      injection h with h'
      injection h' with hp hrest
      injection hrest with hu hamt
      subst hp; subst hu
      exact ⟨rfl, rfl, rfl, rfl⟩

/-- C9 amended-claim witness: a top-up of 1 into the locked position
`c9_user1` (principal 100) at `t = 50` preserves bonus, lock kind and lock
window. -/
theorem wave_c9_bonus_immutability_amended_witness :
    WaveStake.c9_userT.bonus_multiplier = WaveStake.c9_user1.bonus_multiplier ∧
    WaveStake.c9_userT.lock_type = WaveStake.c9_user1.lock_type ∧
    WaveStake.c9_userT.lock_start_timestamp = WaveStake.c9_user1.lock_start_timestamp ∧
    WaveStake.c9_userT.lock_end_timestamp = WaveStake.c9_user1.lock_end_timestamp :=
  (wave_c9_bonus_immutability_amended WaveStake.c9_pool1 WaveStake.c9_user1 1 0 50
    WaveStake.c9_poolT WaveStake.c9_userT).1 (by decide) rfl

/-- C10 (failing evaluation): `update_pool` called by pubkey `2`, which is
not the stored pool authority `1`, succeeds and changes
`reward_per_second` — there is no `Unauthorized` failure and the pool state
is not left unchanged, because the `UpdatePool` accounts context carries no
constraint tying the signer to `pool.authority`. -/
theorem wave_c10_update_pool_missing_auth :
    WaveStake.c10_pool.authority = 1 ∧ (2 : Nat) ≠ 1 ∧
    WaveStake.update_pool WaveStake.c10_pool 2 (some 7) none none =
      .ok WaveStake.c10_pool1 ∧
    WaveStake.c10_pool1.reward_per_second ≠ WaveStake.c10_pool.reward_per_second :=
  ⟨rfl, by decide, rfl, by decide⟩
